import Mathlib

/-
Shallow embedding of the abcperf/usig crate: a Unique Sequential Identifier
Generator (USIG) with three backends (HMAC, digital signature, no-op).
Bytes are modelled as lists of naturals, hash maps as functions into Option,
and the cryptographic primitives as abstract scheme parameters, mirroring the
Rust code's genericity over the MAC / signer / verifier type parameters.
The u64 signing counter is modelled as an unbounded Nat: the spec explicitly
leaves counter overflow open and assumes the counter inexhaustible.
-/

/-- Byte strings, modelled as lists of naturals. -/
abbrev Bytes := List Nat

/-- Opaque identifier of a remote party (shared_ids::ReplicaId, a 64-bit id
used only as a map key and in error reporting). -/
abbrev ReplicaId := Nat

/-- Error type of the crate (src/lib.rs, UsigError). -/
inductive UsigError where
  | UnknownId (id : ReplicaId)
  | InvalidSignature
  | RemoteAttestationFailed
  | SigningFailed
deriving DecidableEq

/-- Big-endian byte encoding of the 64-bit counter (u64::to_be_bytes). -/
def beBytes (n : Nat) : Bytes :=
  [n / 2 ^ 56 % 256, n / 2 ^ 48 % 256, n / 2 ^ 40 % 256, n / 2 ^ 32 % 256,
   n / 2 ^ 24 % 256, n / 2 ^ 16 % 256, n / 2 ^ 8 % 256, n % 256]

/-- Abstract keyed-MAC primitive, standing for the Rust type parameter
M : Mac + Debug + KeyInit + Clone of src/hmac.rs. A keyed MAC instance is
represented by the key it was initialised from; validKey tells whether
Mac::new_from_slice accepts the key, and mac gives the tag that the keyed
instance produces over a data stream. -/
structure MacScheme where
  validKey : Bytes → Bool
  mac : Bytes → Bytes → Bytes

/-- Envelope of the HMAC backend (src/hmac.rs, Signature of that module). -/
structure HmacSignature where
  counter : Nat
  signature : Bytes
deriving DecidableEq

/-- Signer half of the HMAC backend (src/hmac.rs, UsigHmacSignHalf).
The hmac field is the pre-keyed MAC primitive, represented by its key. -/
structure UsigHmacSignHalf where
  counter : Nat
  hmac : Bytes
  key : Bytes

/-- Constructor try_new of the HMAC signer half. -/
def UsigHmacSignHalf.try_new (S : MacScheme) (key : Bytes) :
    Option UsigHmacSignHalf :=
  if S.validKey key then some { counter := 0, hmac := key, key := key }
  else none

/-- Sign of the HMAC signer half: snapshot the counter, advance it, tag the
composite (counter bytes followed by the message) with a clone of the keyed
primitive. -/
def UsigHmacSignHalf.sign (S : MacScheme) (st : UsigHmacSignHalf)
    (message : Bytes) : Except UsigError HmacSignature × UsigHmacSignHalf :=
  let counter := st.counter
  let st' : UsigHmacSignHalf := { st with counter := st.counter + 1 }
  let tag := S.mac st.hmac (beBytes counter ++ message)
  (Except.ok { counter := counter, signature := tag }, st')

/-- Attest of the HMAC signer half: a clone of the raw key. -/
def UsigHmacSignHalf.attest (st : UsigHmacSignHalf) :
    Except UsigError Bytes × UsigHmacSignHalf :=
  (Except.ok st.key, st)

/-- Verifier half of the HMAC backend (src/hmac.rs, UsigHmacVerifyHalf):
a map from replica ids to enrolled keyed MAC primitives (represented by
their keys). -/
structure UsigHmacVerifyHalf where
  other_hmacs : ReplicaId → Option Bytes

/-- Verify of the HMAC verifier half: look up the id, recompute the tag over
the composite and compare it (constant-time in the Rust code) against the
envelope's tag. -/
def UsigHmacVerifyHalf.verify (S : MacScheme) (st : UsigHmacVerifyHalf)
    (id : ReplicaId) (message : Bytes) (signature : HmacSignature) :
    Except UsigError Unit :=
  match st.other_hmacs id with
  | some hmacKey =>
      if S.mac hmacKey (beBytes signature.counter ++ message)
          = signature.signature
      then Except.ok ()
      else Except.error UsigError.InvalidSignature
  | none => Except.error (UsigError.UnknownId id)

/-- Enrollment for the HMAC verifier half: accept iff the key bytes are
accepted by the MAC primitive's key constructor; on success overwrite the
entry for the id. -/
def UsigHmacVerifyHalf.add_remote_party (S : MacScheme)
    (st : UsigHmacVerifyHalf) (id : ReplicaId) (att : Bytes) :
    Bool × UsigHmacVerifyHalf :=
  if S.validKey att then
    (true, { other_hmacs := fun j => if j = id then some att
                                     else st.other_hmacs j })
  else (false, st)

/-- Composed HMAC USIG (src/hmac.rs, UsigHmac). -/
structure UsigHmac where
  sign_half : UsigHmacSignHalf
  verify_half : UsigHmacVerifyHalf

/-- Sign on the composed HMAC USIG delegates to the sign half. -/
def UsigHmac.sign (S : MacScheme) (u : UsigHmac) (message : Bytes) :
    Except UsigError HmacSignature × UsigHmac :=
  let r := UsigHmacSignHalf.sign S u.sign_half message
  (r.1, { u with sign_half := r.2 })

/-- Attest on the composed HMAC USIG delegates to the sign half. -/
def UsigHmac.attest (u : UsigHmac) : Except UsigError Bytes × UsigHmac :=
  let r := UsigHmacSignHalf.attest u.sign_half
  (r.1, { u with sign_half := r.2 })

/-- Verify on the composed HMAC USIG delegates to the verify half. -/
def UsigHmac.verify (S : MacScheme) (u : UsigHmac) (id : ReplicaId)
    (message : Bytes) (signature : HmacSignature) : Except UsigError Unit :=
  UsigHmacVerifyHalf.verify S u.verify_half id message signature

/-- Enrollment on the composed HMAC USIG delegates to the verify half. -/
def UsigHmac.add_remote_party (S : MacScheme) (u : UsigHmac) (id : ReplicaId)
    (att : Bytes) : Bool × UsigHmac :=
  let r := UsigHmacVerifyHalf.add_remote_party S u.verify_half id att
  (r.1, { u with verify_half := r.2 })

/-- Split of the composed HMAC USIG into its two halves. -/
def UsigHmac.split (u : UsigHmac) : UsigHmacSignHalf × UsigHmacVerifyHalf :=
  (u.sign_half, u.verify_half)

/-- Abstract digital-signature scheme, standing for the Rust type parameters
Q (signature), S : Signer of Q, V : Verifier of Q of src/signature.rs. -/
structure SigScheme where
  SK : Type
  VK : Type
  Q : Type
  signRaw : SK → Bytes → Q
  verifyRaw : VK → Bytes → Q → Bool

/-- Envelope of the signature backend (src/signature.rs, Signature of that
module). -/
structure SigSignature (C : SigScheme) where
  counter : Nat
  signature : C.Q

/-- Signer half of the signature backend (src/signature.rs,
UsigSignatureSignHalf). -/
structure UsigSignatureSignHalf (C : SigScheme) where
  counter : Nat
  private_key : C.SK
  public_key : C.VK

/-- Constructor new of the signature signer half. -/
def UsigSignatureSignHalf.new (C : SigScheme) (private_key : C.SK)
    (public_key : C.VK) : UsigSignatureSignHalf C :=
  { counter := 0, private_key := private_key, public_key := public_key }

/-- Sign of the signature signer half: snapshot the counter, advance it, sign
the composite (counter bytes followed by the message) with the private key. -/
def UsigSignatureSignHalf.sign (C : SigScheme) (st : UsigSignatureSignHalf C)
    (message : Bytes) :
    Except UsigError (SigSignature C) × UsigSignatureSignHalf C :=
  let counter := st.counter
  let st' : UsigSignatureSignHalf C := { st with counter := st.counter + 1 }
  let data := beBytes counter ++ message
  let signature := C.signRaw st.private_key data
  (Except.ok { counter := counter, signature := signature }, st')

/-- Attest of the signature signer half: a clone of the public key. -/
def UsigSignatureSignHalf.attest (C : SigScheme)
    (st : UsigSignatureSignHalf C) :
    Except UsigError C.VK × UsigSignatureSignHalf C :=
  (Except.ok st.public_key, st)

/-- Verifier half of the signature backend (src/signature.rs,
UsigSignatureVerifyHalf): a map from replica ids to public keys. -/
structure UsigSignatureVerifyHalf (C : SigScheme) where
  other_keys : ReplicaId → Option C.VK

/-- Verify of the signature verifier half: look up the id, rebuild the
composite and call the scheme's verification routine. -/
def UsigSignatureVerifyHalf.verify (C : SigScheme)
    (st : UsigSignatureVerifyHalf C) (id : ReplicaId) (message : Bytes)
    (signature : SigSignature C) : Except UsigError Unit :=
  match st.other_keys id with
  | some key =>
      let data := beBytes signature.counter ++ message
      if C.verifyRaw key data signature.signature then Except.ok ()
      else Except.error UsigError.InvalidSignature
  | none => Except.error (UsigError.UnknownId id)

/-- Enrollment for the signature verifier half: unconditionally insert the
public key and return true. -/
def UsigSignatureVerifyHalf.add_remote_party (C : SigScheme)
    (st : UsigSignatureVerifyHalf C) (id : ReplicaId) (att : C.VK) :
    Bool × UsigSignatureVerifyHalf C :=
  (true, { other_keys := fun j => if j = id then some att
                                  else st.other_keys j })

/-- Composed signature USIG (src/signature.rs, UsigSignature). -/
structure UsigSignature (C : SigScheme) where
  sign_half : UsigSignatureSignHalf C
  verify_half : UsigSignatureVerifyHalf C

/-- Sign on the composed signature USIG delegates to the sign half. -/
def UsigSignature.sign (C : SigScheme) (u : UsigSignature C)
    (message : Bytes) :
    Except UsigError (SigSignature C) × UsigSignature C :=
  let r := UsigSignatureSignHalf.sign C u.sign_half message
  (r.1, { u with sign_half := r.2 })

/-- Attest on the composed signature USIG delegates to the sign half. -/
def UsigSignature.attest (C : SigScheme) (u : UsigSignature C) :
    Except UsigError C.VK × UsigSignature C :=
  let r := UsigSignatureSignHalf.attest C u.sign_half
  (r.1, { u with sign_half := r.2 })

/-- Verify on the composed signature USIG delegates to the verify half. -/
def UsigSignature.verify (C : SigScheme) (u : UsigSignature C)
    (id : ReplicaId) (message : Bytes) (signature : SigSignature C) :
    Except UsigError Unit :=
  UsigSignatureVerifyHalf.verify C u.verify_half id message signature

/-- Enrollment on the composed signature USIG delegates to the verify
half. -/
def UsigSignature.add_remote_party (C : SigScheme) (u : UsigSignature C)
    (id : ReplicaId) (att : C.VK) : Bool × UsigSignature C :=
  let r := UsigSignatureVerifyHalf.add_remote_party C u.verify_half id att
  (r.1, { u with verify_half := r.2 })

/-- Split of the composed signature USIG into its two halves. -/
def UsigSignature.split (C : SigScheme) (u : UsigSignature C) :
    UsigSignatureSignHalf C × UsigSignatureVerifyHalf C :=
  (u.sign_half, u.verify_half)

/-- Envelope of the no-op backend (src/noop.rs, Signature of that module):
just the counter. -/
structure NoopSignature where
  counter : Nat
deriving DecidableEq

/-- Signer half of the no-op backend (src/noop.rs, UsigNoOpSignHalf). -/
structure UsigNoOpSignHalf where
  counter : Nat

/-- Sign of the no-op signer half: the message bytes are read and discarded;
the envelope is just the snapshotted counter. -/
def UsigNoOpSignHalf.sign (st : UsigNoOpSignHalf) (message : Bytes) :
    Except UsigError NoopSignature × UsigNoOpSignHalf :=
  let _ := message
  let counter := st.counter
  let st' : UsigNoOpSignHalf := { st with counter := st.counter + 1 }
  (Except.ok { counter := counter }, st')

/-- Attest of the no-op signer half: the unit attestation. -/
def UsigNoOpSignHalf.attest (st : UsigNoOpSignHalf) :
    Except UsigError Unit × UsigNoOpSignHalf :=
  (Except.ok (), st)

/-- Verifier half of the no-op backend (src/noop.rs, UsigNoOpVerifyHalf):
a set of enrolled replica ids. -/
structure UsigNoOpVerifyHalf where
  ids : ReplicaId → Bool

/-- Verify of the no-op verifier half: succeed iff the id is enrolled; the
message and the envelope content are never examined. -/
def UsigNoOpVerifyHalf.verify (st : UsigNoOpVerifyHalf) (id : ReplicaId)
    (message : Bytes) (signature : NoopSignature) : Except UsigError Unit :=
  if st.ids id then
    let _ := message
    let _ := signature
    Except.ok ()
  else Except.error (UsigError.UnknownId id)

/-- Enrollment for the no-op verifier half: insert the id, return true. -/
def UsigNoOpVerifyHalf.add_remote_party (st : UsigNoOpVerifyHalf)
    (id : ReplicaId) (att : Unit) : Bool × UsigNoOpVerifyHalf :=
  let _ := att
  (true, { ids := fun j => if j = id then true else st.ids j })

/-- Composed no-op USIG (src/noop.rs, UsigNoOp). -/
structure UsigNoOp where
  sign_half : UsigNoOpSignHalf
  verify_half : UsigNoOpVerifyHalf

/-- Sign on the composed no-op USIG delegates to the sign half. -/
def UsigNoOp.sign (u : UsigNoOp) (message : Bytes) :
    Except UsigError NoopSignature × UsigNoOp :=
  let r := UsigNoOpSignHalf.sign u.sign_half message
  (r.1, { u with sign_half := r.2 })

/-- Attest on the composed no-op USIG delegates to the sign half. -/
def UsigNoOp.attest (u : UsigNoOp) : Except UsigError Unit × UsigNoOp :=
  let r := UsigNoOpSignHalf.attest u.sign_half
  (r.1, { u with sign_half := r.2 })

/-- Verify on the composed no-op USIG delegates to the verify half. -/
def UsigNoOp.verify (u : UsigNoOp) (id : ReplicaId) (message : Bytes)
    (signature : NoopSignature) : Except UsigError Unit :=
  UsigNoOpVerifyHalf.verify u.verify_half id message signature

/-- Enrollment on the composed no-op USIG delegates to the verify half. -/
def UsigNoOp.add_remote_party (u : UsigNoOp) (id : ReplicaId) (att : Unit) :
    Bool × UsigNoOp :=
  let r := UsigNoOpVerifyHalf.add_remote_party u.verify_half id att
  (r.1, { u with verify_half := r.2 })

/-- Split of the composed no-op USIG into its two halves. -/
def UsigNoOp.split (u : UsigNoOp) : UsigNoOpSignHalf × UsigNoOpVerifyHalf :=
  (u.sign_half, u.verify_half)

/-- Stateful byte source, modelling the polymorphic message argument
(impl AsRef of u8 slices) together with an observable count of how often its
byte view has been taken, as in the as_ref probe of the crate's tests. -/
structure ByteSource where
  view : Bytes
  reads : Nat

/-- Taking the byte view of a byte source (AsRef::as_ref) yields the bytes
and increments the observable read count. -/
def ByteSource.asRef (s : ByteSource) : Bytes × ByteSource :=
  (s.view, { s with reads := s.reads + 1 })

/-- Sign of the HMAC signer half with the message as an instrumented byte
source; as_ref is taken at the same point as in the source. -/
def UsigHmacSignHalf.signTraced (S : MacScheme) (st : UsigHmacSignHalf)
    (message : ByteSource) :
    (Except UsigError HmacSignature × UsigHmacSignHalf) × ByteSource :=
  let counter := st.counter
  let st' : UsigHmacSignHalf := { st with counter := st.counter + 1 }
  let r := message.asRef
  let tag := S.mac st.hmac (beBytes counter ++ r.1)
  ((Except.ok { counter := counter, signature := tag }, st'), r.2)

/-- Verify of the HMAC verifier half with the message as an instrumented byte
source; as_ref is taken only inside the enrolled branch, as in the source. -/
def UsigHmacVerifyHalf.verifyTraced (S : MacScheme)
    (st : UsigHmacVerifyHalf) (id : ReplicaId) (message : ByteSource)
    (signature : HmacSignature) : Except UsigError Unit × ByteSource :=
  match st.other_hmacs id with
  | some hmacKey =>
      let r := message.asRef
      if S.mac hmacKey (beBytes signature.counter ++ r.1)
          = signature.signature
      then (Except.ok (), r.2)
      else (Except.error UsigError.InvalidSignature, r.2)
  | none => (Except.error (UsigError.UnknownId id), message)

/-- Sign of the signature signer half with an instrumented byte source. -/
def UsigSignatureSignHalf.signTraced (C : SigScheme)
    (st : UsigSignatureSignHalf C) (message : ByteSource) :
    (Except UsigError (SigSignature C) × UsigSignatureSignHalf C) ×
      ByteSource :=
  let counter := st.counter
  let st' : UsigSignatureSignHalf C := { st with counter := st.counter + 1 }
  let r := message.asRef
  let data := beBytes counter ++ r.1
  let signature := C.signRaw st.private_key data
  ((Except.ok { counter := counter, signature := signature }, st'), r.2)

/-- Verify of the signature verifier half with an instrumented byte source;
as_ref is taken only inside the enrolled branch, as in the source. -/
def UsigSignatureVerifyHalf.verifyTraced (C : SigScheme)
    (st : UsigSignatureVerifyHalf C) (id : ReplicaId) (message : ByteSource)
    (signature : SigSignature C) : Except UsigError Unit × ByteSource :=
  match st.other_keys id with
  | some key =>
      let r := message.asRef
      let data := beBytes signature.counter ++ r.1
      if C.verifyRaw key data signature.signature then (Except.ok (), r.2)
      else (Except.error UsigError.InvalidSignature, r.2)
  | none => (Except.error (UsigError.UnknownId id), message)

/-- Sign of the no-op signer half with an instrumented byte source: the
source reads and discards the byte view before issuing the envelope. -/
def UsigNoOpSignHalf.signTraced (st : UsigNoOpSignHalf)
    (message : ByteSource) :
    (Except UsigError NoopSignature × UsigNoOpSignHalf) × ByteSource :=
  let r := message.asRef
  let counter := st.counter
  let st' : UsigNoOpSignHalf := { st with counter := st.counter + 1 }
  ((Except.ok { counter := counter }, st'), r.2)

/-- Verify of the no-op verifier half with an instrumented byte source;
as_ref is taken only inside the enrolled branch, as in the source. -/
def UsigNoOpVerifyHalf.verifyTraced (st : UsigNoOpVerifyHalf)
    (id : ReplicaId) (message : ByteSource) (signature : NoopSignature) :
    Except UsigError Unit × ByteSource :=
  if st.ids id then
    let r := message.asRef
    let _ := signature
    (Except.ok (), r.2)
  else (Except.error (UsigError.UnknownId id), message)

/-- Iterated signing: feed a list of messages to a sign operation one after
the other, collecting the results and threading the signer state. -/
def signAll {St E : Type} (f : St → Bytes → Except UsigError E × St)
    (st : St) : List Bytes → List (Except UsigError E) × St
  | [] => ([], st)
  | m :: ms =>
      let step := f st m
      let rest := signAll f step.2 ms
      (step.1 :: rest.1, rest.2)

/-- Observed counters of a list of sign results: the envelope counter for a
success, none for an error. -/
def okCounters {E : Type} (cnt : E → Nat)
    (rs : List (Except UsigError E)) : List (Option Nat) :=
  rs.map fun r =>
    match r with
    | Except.ok e => some (cnt e)
    | Except.error _ => none

/-- Concrete MAC primitive used to evaluate the development: keys of length
one are valid, and the tag is the key length followed by key and data. -/
def toyMac : MacScheme where
  validKey := fun k => decide (k.length = 1)
  mac := fun k d => k.length :: (k ++ d)

/-- The toy MAC has no collisions at all: the tag determines key and data. -/
lemma toyMac_mac_inj :
    Function.Injective (fun p : Bytes × Bytes => toyMac.mac p.1 p.2) := by
  rintro ⟨k, d⟩ ⟨k', d'⟩ h
  simp only [toyMac] at h
  obtain ⟨hl, ha⟩ := List.cons.inj h
  obtain ⟨hk, hd⟩ := List.append_inj ha hl
  simp [hk, hd]

/-- Concrete signature scheme used to evaluate the development: a signature
is the pair of the signing key and the data, and verification under a public
key accepts exactly the pair formed from that key and the data. -/
abbrev toySig : SigScheme where
  SK := Nat
  VK := Nat
  Q := Nat × Bytes
  signRaw := fun sk d => (sk, d)
  verifyRaw := fun vk d s => decide (s = (vk, d))

/-- In the toy scheme a public key accepts exactly the signatures that the
same-numbered private key produces. -/
lemma toySig_strict (k : Nat) (d : Bytes) (s : toySig.Q) :
    toySig.verifyRaw k d s = true ↔ s = toySig.signRaw k d := by
  simp [toySig]

/-- Distinct toy signers never produce a common signature. -/
lemma toySig_cross (a b : Nat) (h : a ≠ b) (d d' : Bytes) :
    toySig.signRaw a d ≠ toySig.signRaw b d' := by
  intro he
  simp only [toySig, Prod.mk.injEq] at he
  exact h he.1

/-- Toy signing is injective in the signed data. -/
lemma toySig_inj (k : Nat) : Function.Injective (toySig.signRaw k) := by
  intro d d' h
  simp only [toySig, Prod.mk.injEq] at h
  exact h.2

/-- Counter evolution of iterated signing, generic over the backend: if one
sign emits the current state counter and bumps it by one, then a run over a
message list emits the consecutive counters starting at the initial state
counter, every call succeeding. -/
lemma signAll_okCounters {St E : Type}
    (f : St → Bytes → Except UsigError E × St) (cnt : E → Nat)
    (stCnt : St → Nat)
    (hok : ∀ st m, ∃ e, (f st m).1 = Except.ok e ∧ cnt e = stCnt st)
    (hstep : ∀ st m, stCnt (f st m).2 = stCnt st + 1) :
    ∀ (ms : List Bytes) (st : St),
      okCounters cnt (signAll f st ms).1
        = (List.range ms.length).map (fun i => some (stCnt st + i)) := by
  intro ms
  induction ms with
  | nil => intro st; simp [signAll, okCounters]
  | cons m ms ih =>
      intro st
      obtain ⟨e, he, hc⟩ := hok st m
      have h1 : okCounters cnt (signAll f st (m :: ms)).1
          = okCounters cnt ((f st m).1 :: (signAll f (f st m).2 ms).1) := rfl
      have h2 : okCounters cnt ((f st m).1 :: (signAll f (f st m).2 ms).1)
          = some (stCnt st) :: okCounters cnt (signAll f (f st m).2 ms).1 := by
        simp [okCounters, he, hc]
      rw [h1, h2, ih ((f st m).2), hstep st m, List.length_cons,
        List.range_succ_eq_map, List.map_cons, List.map_map]
      have hfg : (fun i => some (stCnt st + 1 + i))
          = ((fun i => some (stCnt st + i)) ∘ Nat.succ) := by
        funext i
        exact congrArg some (by omega)
      rw [hfg]
      simp

/-- Enrollment with a key that the MAC primitive accepts installs exactly
that key under the id. -/
lemma hmac_add_lookup (S : MacScheme) (vh : UsigHmacVerifyHalf)
    (i : ReplicaId) (att : Bytes) (hv : S.validKey att = true) :
    ((UsigHmacVerifyHalf.add_remote_party S vh i att).2).other_hmacs i
      = some att := by
  simp [UsigHmacVerifyHalf.add_remote_party, hv]

/-- An HMAC envelope verifies when the enrolled key is the signer's keyed
primitive and the message is the one that was signed. -/
lemma hmac_verify_sign_ok (S : MacScheme) (vh : UsigHmacVerifyHalf)
    (i : ReplicaId) (st : UsigHmacSignHalf) (m : Bytes) (e : HmacSignature)
    (hik : vh.other_hmacs i = some st.hmac)
    (he : (UsigHmacSignHalf.sign S st m).1 = Except.ok e) :
    UsigHmacVerifyHalf.verify S vh i m e = Except.ok () := by
  simp only [UsigHmacSignHalf.sign, Except.ok.injEq] at he
  subst he
  simp [UsigHmacVerifyHalf.verify, hik]

/-- With a collision-free MAC, an envelope produced under a key different
from the enrolled one is rejected as an invalid signature. -/
lemma hmac_verify_wrong_key (S : MacScheme)
    (hinj : Function.Injective (fun p : Bytes × Bytes => S.mac p.1 p.2))
    (vh : UsigHmacVerifyHalf) (i : ReplicaId) (k : Bytes)
    (st : UsigHmacSignHalf) (m' m : Bytes) (e : HmacSignature)
    (hik : vh.other_hmacs i = some k) (hk : st.hmac ≠ k)
    (he : (UsigHmacSignHalf.sign S st m').1 = Except.ok e) :
    UsigHmacVerifyHalf.verify S vh i m e
      = Except.error UsigError.InvalidSignature := by
  simp only [UsigHmacSignHalf.sign, Except.ok.injEq] at he
  subst he
  have hne : S.mac k (beBytes st.counter ++ m)
      ≠ S.mac st.hmac (beBytes st.counter ++ m') := by
    intro hEq
    have hEq' : (fun p : Bytes × Bytes => S.mac p.1 p.2)
          (k, beBytes st.counter ++ m)
        = (fun p : Bytes × Bytes => S.mac p.1 p.2)
          (st.hmac, beBytes st.counter ++ m') := hEq
    have h2 := hinj hEq'
    simp only [Prod.mk.injEq] at h2
    exact hk h2.1.symm
  simp [UsigHmacVerifyHalf.verify, hik, hne]

/-- With a collision-free MAC, an envelope signed by the enrolled key over a
different message is rejected as an invalid signature. -/
lemma hmac_verify_wrong_message (S : MacScheme)
    (hinj : Function.Injective (fun p : Bytes × Bytes => S.mac p.1 p.2))
    (vh : UsigHmacVerifyHalf) (i : ReplicaId) (st : UsigHmacSignHalf)
    (m' m : Bytes) (e : HmacSignature)
    (hik : vh.other_hmacs i = some st.hmac) (hm : m' ≠ m)
    (he : (UsigHmacSignHalf.sign S st m').1 = Except.ok e) :
    UsigHmacVerifyHalf.verify S vh i m e
      = Except.error UsigError.InvalidSignature := by
  simp only [UsigHmacSignHalf.sign, Except.ok.injEq] at he
  subst he
  have hne : S.mac st.hmac (beBytes st.counter ++ m)
      ≠ S.mac st.hmac (beBytes st.counter ++ m') := by
    intro hEq
    have hEq' : (fun p : Bytes × Bytes => S.mac p.1 p.2)
          (st.hmac, beBytes st.counter ++ m)
        = (fun p : Bytes × Bytes => S.mac p.1 p.2)
          (st.hmac, beBytes st.counter ++ m') := hEq
    have h2 := hinj hEq'
    simp only [Prod.mk.injEq] at h2
    exact hm (List.append_cancel_left h2.2).symm
  simp [UsigHmacVerifyHalf.verify, hik, hne]

/-- A signature-backend envelope verifies when the enrolled public key
accepts the signatures of the signer's private key and the message is the
one that was signed. -/
lemma sig_verify_sign_ok (C : SigScheme) (vh : UsigSignatureVerifyHalf C)
    (i : ReplicaId) (vk : C.VK) (st : UsigSignatureSignHalf C) (m : Bytes)
    (e : SigSignature C) (hik : vh.other_keys i = some vk)
    (hcomp : ∀ d, C.verifyRaw vk d (C.signRaw st.private_key d) = true)
    (he : (UsigSignatureSignHalf.sign C st m).1 = Except.ok e) :
    UsigSignatureVerifyHalf.verify C vh i m e = Except.ok () := by
  simp only [UsigSignatureSignHalf.sign, Except.ok.injEq] at he
  subst he
  simp [UsigSignatureVerifyHalf.verify, hik, hcomp]

/-- A signature-backend envelope is rejected as an invalid signature when the
enrolled public key rejects the signed composite it carries. -/
lemma sig_verify_reject (C : SigScheme) (vh : UsigSignatureVerifyHalf C)
    (i : ReplicaId) (vk : C.VK) (st : UsigSignatureSignHalf C) (m' m : Bytes)
    (e : SigSignature C) (hik : vh.other_keys i = some vk)
    (hrej : C.verifyRaw vk (beBytes st.counter ++ m)
        (C.signRaw st.private_key (beBytes st.counter ++ m')) = false)
    (he : (UsigSignatureSignHalf.sign C st m').1 = Except.ok e) :
    UsigSignatureVerifyHalf.verify C vh i m e
      = Except.error UsigError.InvalidSignature := by
  simp only [UsigSignatureSignHalf.sign, Except.ok.injEq] at he
  subst he
  simp [UsigSignatureVerifyHalf.verify, hik, hrej]


/-- C1: for every signer half (HMAC backend, signature backend, no-op
backend) started fresh at counter 0 and every sequence of messages, every
call to sign returns Ok, the first returned envelope carries counter 0, and
each later envelope's counter is the previous one's plus exactly one,
irrespective of the message contents: the observed counters of the run are
exactly 0, 1, ..., n-1. -/
theorem C1_sign_counter_monotone :
    (∀ (S : MacScheme) (st : UsigHmacSignHalf) (ms : List Bytes),
      st.counter = 0 →
      okCounters HmacSignature.counter
          (signAll (UsigHmacSignHalf.sign S) st ms).1
        = (List.range ms.length).map some)
  ∧ (∀ (C : SigScheme) (st : UsigSignatureSignHalf C) (ms : List Bytes),
      st.counter = 0 →
      okCounters (fun e : SigSignature C => e.counter)
          (signAll (UsigSignatureSignHalf.sign C) st ms).1
        = (List.range ms.length).map some)
  ∧ (∀ (st : UsigNoOpSignHalf) (ms : List Bytes),
      st.counter = 0 →
      okCounters NoopSignature.counter
          (signAll UsigNoOpSignHalf.sign st ms).1
        = (List.range ms.length).map some) := by
  refine ⟨?_, ?_, ?_⟩
  · intro S st ms h0
    have h := signAll_okCounters (UsigHmacSignHalf.sign S)
      HmacSignature.counter (fun s => s.counter)
      (fun st m => ⟨_, rfl, rfl⟩) (fun st m => rfl) ms st
    rw [h, h0]
    simp
  · intro C st ms h0
    have h := signAll_okCounters (UsigSignatureSignHalf.sign C)
      (fun e : SigSignature C => e.counter) (fun s => s.counter)
      (fun st m => ⟨_, rfl, rfl⟩) (fun st m => rfl) ms st
    rw [h, h0]
    simp
  · intro st ms h0
    have h := signAll_okCounters UsigNoOpSignHalf.sign
      NoopSignature.counter (fun s => s.counter)
      (fun st m => ⟨_, rfl, rfl⟩) (fun st m => rfl) ms st
    rw [h, h0]
    simp

/-- Witness for C1: two messages signed by a fresh signer half of each
backend yield the counters 0 and 1, every call succeeding. -/
theorem C1_sign_counter_monotone_witness :
    okCounters HmacSignature.counter
        (signAll (UsigHmacSignHalf.sign toyMac)
          { counter := 0, hmac := [3], key := [3] } [[], [7]]).1
      = (List.range 2).map some
  ∧ okCounters (fun e : SigSignature toySig => e.counter)
        (signAll (UsigSignatureSignHalf.sign toySig)
          { counter := 0, private_key := 5, public_key := 5 } [[], [7]]).1
      = (List.range 2).map some
  ∧ okCounters NoopSignature.counter
        (signAll UsigNoOpSignHalf.sign { counter := 0 } [[], [7]]).1
      = (List.range 2).map some :=
  ⟨C1_sign_counter_monotone.1 toyMac _ _ rfl,
   C1_sign_counter_monotone.2.1 toySig _ _ rfl,
   C1_sign_counter_monotone.2.2 _ _ rfl⟩

/-- C2: round-trip validity for the HMAC and signature backends: if a
verifier half has enrolled a signer's attestation under id i, then for every
message m (the empty byte sequence included) verifying (i, m, sign m) of
that signer succeeds. For the signature backend the enrolled public key is
assumed to accept the signatures of the signer's private key, which is how
the key pair is produced. -/
theorem C2_round_trip :
    (∀ (S : MacScheme) (stS : UsigHmacSignHalf) (vh : UsigHmacVerifyHalf)
        (i : ReplicaId) (att : Bytes),
      stS.hmac = stS.key →
      (UsigHmacSignHalf.attest stS).1 = Except.ok att →
      (UsigHmacVerifyHalf.add_remote_party S vh i att).1 = true →
      ∀ m : Bytes, ∃ e, (UsigHmacSignHalf.sign S stS m).1 = Except.ok e ∧
        UsigHmacVerifyHalf.verify S
          (UsigHmacVerifyHalf.add_remote_party S vh i att).2 i m e
          = Except.ok ())
  ∧ (∀ (C : SigScheme) (stS : UsigSignatureSignHalf C)
        (vh : UsigSignatureVerifyHalf C) (i : ReplicaId) (att : C.VK),
      (∀ d, C.verifyRaw stS.public_key d (C.signRaw stS.private_key d)
          = true) →
      (UsigSignatureSignHalf.attest C stS).1 = Except.ok att →
      ∀ m : Bytes, ∃ e,
        (UsigSignatureSignHalf.sign C stS m).1 = Except.ok e ∧
        UsigSignatureVerifyHalf.verify C
          (UsigSignatureVerifyHalf.add_remote_party C vh i att).2 i m e
          = Except.ok ()) := by
  constructor
  · intro S stS vh i att hkey hatt hadd m
    simp only [UsigHmacSignHalf.attest, Except.ok.injEq] at hatt
    subst hatt
    have hv : S.validKey stS.key = true := by
      cases hv : S.validKey stS.key
      · simp [UsigHmacVerifyHalf.add_remote_party, hv] at hadd
      · rfl
    refine ⟨_, rfl, ?_⟩
    refine hmac_verify_sign_ok S _ i stS m _ ?_ rfl
    rw [hkey]
    exact hmac_add_lookup S vh i stS.key hv
  · intro C stS vh i att hpk hatt m
    simp only [UsigSignatureSignHalf.attest, Except.ok.injEq] at hatt
    subst hatt
    refine ⟨_, rfl, ?_⟩
    refine sig_verify_sign_ok C _ i stS.public_key stS m _ ?_ hpk rfl
    simp [UsigSignatureVerifyHalf.add_remote_party]

/-- Witness for C2: a concrete round trip through both backends, with the
empty message. -/
theorem C2_round_trip_witness :
    (∃ e, (UsigHmacSignHalf.sign toyMac
        { counter := 0, hmac := [3], key := [3] } []).1 = Except.ok e ∧
      UsigHmacVerifyHalf.verify toyMac
        (UsigHmacVerifyHalf.add_remote_party toyMac
          { other_hmacs := fun _ => none } 0 [3]).2 0 [] e = Except.ok ())
  ∧ (∃ e, (UsigSignatureSignHalf.sign toySig
        { counter := 0, private_key := 5, public_key := 5 } []).1
          = Except.ok e ∧
      UsigSignatureVerifyHalf.verify toySig
        (UsigSignatureVerifyHalf.add_remote_party toySig
          { other_keys := fun _ => none } 0 5).2 0 [] e = Except.ok ()) :=
  ⟨C2_round_trip.1 toyMac { counter := 0, hmac := [3], key := [3] }
      { other_hmacs := fun _ => none } 0 [3] rfl rfl (by decide) [],
   C2_round_trip.2 toySig { counter := 0, private_key := 5, public_key := 5 }
      { other_keys := fun _ => none } 0 5 (fun d => by simp [toySig]) rfl []⟩

/-- C3: for the HMAC and signature backends, with the enrolled material
belonging to signer X, verification rejects with InvalidSignature both an
envelope produced by a different signer Y (one whose key material differs:
for the MAC backend a different keyed primitive under a collision-free MAC,
for the signature backend a signer none of whose signatures the enrolled
public key accepts) and an envelope produced by X over a message different
from the one being verified. -/
theorem C3_mismatch_detection :
    (∀ (S : MacScheme),
      Function.Injective (fun p : Bytes × Bytes => S.mac p.1 p.2) →
      ∀ (vh : UsigHmacVerifyHalf) (i : ReplicaId) (kX : Bytes)
        (stY : UsigHmacSignHalf) (mY m : Bytes) (e : HmacSignature),
        vh.other_hmacs i = some kX → stY.hmac ≠ kX →
        (UsigHmacSignHalf.sign S stY mY).1 = Except.ok e →
        UsigHmacVerifyHalf.verify S vh i m e
          = Except.error UsigError.InvalidSignature)
  ∧ (∀ (S : MacScheme),
      Function.Injective (fun p : Bytes × Bytes => S.mac p.1 p.2) →
      ∀ (vh : UsigHmacVerifyHalf) (i : ReplicaId)
        (stX : UsigHmacSignHalf) (m' m : Bytes) (e : HmacSignature),
        vh.other_hmacs i = some stX.hmac → m' ≠ m →
        (UsigHmacSignHalf.sign S stX m').1 = Except.ok e →
        UsigHmacVerifyHalf.verify S vh i m e
          = Except.error UsigError.InvalidSignature)
  ∧ (∀ (C : SigScheme) (vkX : C.VK) (skX : C.SK),
      (∀ d s, C.verifyRaw vkX d s = true ↔ s = C.signRaw skX d) →
      ∀ (stY : UsigSignatureSignHalf C),
        (∀ d d', C.signRaw stY.private_key d ≠ C.signRaw skX d') →
        ∀ (vh : UsigSignatureVerifyHalf C) (i : ReplicaId) (mY m : Bytes)
          (e : SigSignature C),
          vh.other_keys i = some vkX →
          (UsigSignatureSignHalf.sign C stY mY).1 = Except.ok e →
          UsigSignatureVerifyHalf.verify C vh i m e
            = Except.error UsigError.InvalidSignature)
  ∧ (∀ (C : SigScheme) (vkX : C.VK) (stX : UsigSignatureSignHalf C),
      (∀ d s, C.verifyRaw vkX d s = true ↔ s = C.signRaw stX.private_key d) →
      Function.Injective (C.signRaw stX.private_key) →
      ∀ (vh : UsigSignatureVerifyHalf C) (i : ReplicaId) (m' m : Bytes)
        (e : SigSignature C),
        vh.other_keys i = some vkX → m' ≠ m →
        (UsigSignatureSignHalf.sign C stX m').1 = Except.ok e →
        UsigSignatureVerifyHalf.verify C vh i m e
          = Except.error UsigError.InvalidSignature) := by
  refine ⟨?_, ?_, ?_, ?_⟩
  · intro S hinj vh i kX stY mY m e hik hk he
    exact hmac_verify_wrong_key S hinj vh i kX stY mY m e hik hk he
  · intro S hinj vh i stX m' m e hik hm he
    exact hmac_verify_wrong_message S hinj vh i stX m' m e hik hm he
  · intro C vkX skX hstrict stY hne vh i mY m e hik he
    refine sig_verify_reject C vh i vkX stY mY m e hik ?_ he
    cases hb : C.verifyRaw vkX (beBytes stY.counter ++ m)
        (C.signRaw stY.private_key (beBytes stY.counter ++ mY))
    · rfl
    · exact absurd ((hstrict _ _).mp hb) (hne _ _)
  · intro C vkX stX hstrict hinj vh i m' m e hik hm he
    refine sig_verify_reject C vh i vkX stX m' m e hik ?_ he
    cases hb : C.verifyRaw vkX (beBytes stX.counter ++ m)
        (C.signRaw stX.private_key (beBytes stX.counter ++ m'))
    · rfl
    · have h2 := hinj ((hstrict _ _).mp hb).symm
      exact absurd (List.append_cancel_left h2).symm hm

/-- Witness for C3: concrete wrong-key and wrong-message rejections in both
backends, with the toy primitives. -/
theorem C3_mismatch_detection_witness :
    UsigHmacVerifyHalf.verify toyMac
        { other_hmacs := fun j => if j = 0 then some [3] else none } 0 []
        { counter := 0, signature := toyMac.mac [4] (beBytes 0 ++ []) }
      = Except.error UsigError.InvalidSignature
  ∧ UsigHmacVerifyHalf.verify toyMac
        { other_hmacs := fun j => if j = 0 then some [4] else none } 0 [9]
        { counter := 0, signature := toyMac.mac [4] (beBytes 0 ++ []) }
      = Except.error UsigError.InvalidSignature
  ∧ UsigSignatureVerifyHalf.verify toySig
        { other_keys := fun j => if j = 0 then some 3 else none } 0 []
        { counter := 0, signature := toySig.signRaw 4 (beBytes 0 ++ []) }
      = Except.error UsigError.InvalidSignature
  ∧ UsigSignatureVerifyHalf.verify toySig
        { other_keys := fun j => if j = 0 then some 4 else none } 0 [9]
        { counter := 0, signature := toySig.signRaw 4 (beBytes 0 ++ []) }
      = Except.error UsigError.InvalidSignature :=
  ⟨C3_mismatch_detection.1 toyMac toyMac_mac_inj _ 0 [3]
      { counter := 0, hmac := [4], key := [4] } [] [] _ rfl (by decide) rfl,
   C3_mismatch_detection.2.1 toyMac toyMac_mac_inj _ 0
      { counter := 0, hmac := [4], key := [4] } [] [9] _ rfl (by decide) rfl,
   C3_mismatch_detection.2.2.1 toySig 3 3 (fun d s => toySig_strict 3 d s)
      { counter := 0, private_key := 4, public_key := 4 }
      (fun d d' => toySig_cross 4 3 (by decide) d d') _ 0 [] [] _ rfl rfl,
   C3_mismatch_detection.2.2.2 toySig 4
      { counter := 0, private_key := 4, public_key := 4 }
      (fun d s => toySig_strict 4 d s) (toySig_inj 4) _ 0 [] [9] _ rfl
      (by decide) rfl⟩

/-- C4: for every backend, verifying under an id that is absent from the
verifier's enrollment map returns UnknownId carrying exactly that id,
whatever the envelope and message are; and producing an attestation never
touches the verifier half of a composed USIG, so it cannot implicitly enroll
the producer. -/
theorem C4_unknown_id :
    (∀ (S : MacScheme) (vh : UsigHmacVerifyHalf) (i : ReplicaId)
        (m : Bytes) (e : HmacSignature), vh.other_hmacs i = none →
      UsigHmacVerifyHalf.verify S vh i m e
        = Except.error (UsigError.UnknownId i))
  ∧ (∀ (C : SigScheme) (vh : UsigSignatureVerifyHalf C) (i : ReplicaId)
        (m : Bytes) (e : SigSignature C), vh.other_keys i = none →
      UsigSignatureVerifyHalf.verify C vh i m e
        = Except.error (UsigError.UnknownId i))
  ∧ (∀ (vh : UsigNoOpVerifyHalf) (i : ReplicaId) (m : Bytes)
        (e : NoopSignature), vh.ids i = false →
      UsigNoOpVerifyHalf.verify vh i m e
        = Except.error (UsigError.UnknownId i))
  ∧ (∀ (u : UsigHmac), (UsigHmac.attest u).2.verify_half = u.verify_half)
  ∧ (∀ (C : SigScheme) (u : UsigSignature C),
      (UsigSignature.attest C u).2.verify_half = u.verify_half)
  ∧ (∀ (u : UsigNoOp), (UsigNoOp.attest u).2.verify_half = u.verify_half)
    := by
  refine ⟨?_, ?_, ?_, fun u => rfl, fun C u => rfl, fun u => rfl⟩
  · intro S vh i m e h
    simp [UsigHmacVerifyHalf.verify, h]
  · intro C vh i m e h
    simp [UsigSignatureVerifyHalf.verify, h]
  · intro vh i m e h
    simp [UsigNoOpVerifyHalf.verify, h]

/-- Witness for C4: a fresh verifier half of each backend rejects id 0 with
UnknownId 0. -/
theorem C4_unknown_id_witness :
    UsigHmacVerifyHalf.verify toyMac { other_hmacs := fun _ => none } 0 []
        { counter := 0, signature := [] }
      = Except.error (UsigError.UnknownId 0)
  ∧ UsigSignatureVerifyHalf.verify toySig { other_keys := fun _ => none } 0
        [] { counter := 0, signature := (3, []) }
      = Except.error (UsigError.UnknownId 0)
  ∧ UsigNoOpVerifyHalf.verify { ids := fun _ => false } 0 []
        { counter := 0 }
      = Except.error (UsigError.UnknownId 0) :=
  ⟨C4_unknown_id.1 toyMac { other_hmacs := fun _ => none } 0 []
      { counter := 0, signature := [] } rfl,
   C4_unknown_id.2.1 toySig { other_keys := fun _ => none } 0 []
      { counter := 0, signature := (3, []) } rfl,
   C4_unknown_id.2.2.1 { ids := fun _ => false } 0 [] { counter := 0 } rfl⟩

/-- C5: enrollment overwrite for the HMAC and signature backends: after
enrolling signer X's attestation under id i and then signer Y's (X and Y
distinct signers, both attestations accepted), X's previously issued
envelopes fail with InvalidSignature while Y's verify; re-enrolling X's
attestation restores the original verdicts (X verifies again, Y fails). The
later enrollment fully replaces the earlier material for the id. -/
theorem C5_enrollment_overwrite :
    (∀ (S : MacScheme),
      Function.Injective (fun p : Bytes × Bytes => S.mac p.1 p.2) →
      ∀ (stX stY : UsigHmacSignHalf), stX.hmac = stX.key →
        stY.hmac = stY.key → stX.key ≠ stY.key →
        S.validKey stX.key = true → S.validKey stY.key = true →
      ∀ (vh0 : UsigHmacVerifyHalf) (i : ReplicaId) (mX mY : Bytes)
        (eX eY : HmacSignature),
        (UsigHmacSignHalf.sign S stX mX).1 = Except.ok eX →
        (UsigHmacSignHalf.sign S stY mY).1 = Except.ok eY →
        (UsigHmacVerifyHalf.verify S
            (UsigHmacVerifyHalf.add_remote_party S
              (UsigHmacVerifyHalf.add_remote_party S vh0 i stX.key).2
              i stY.key).2 i mX eX
          = Except.error UsigError.InvalidSignature)
        ∧ (UsigHmacVerifyHalf.verify S
            (UsigHmacVerifyHalf.add_remote_party S
              (UsigHmacVerifyHalf.add_remote_party S vh0 i stX.key).2
              i stY.key).2 i mY eY
          = Except.ok ())
        ∧ (UsigHmacVerifyHalf.verify S
            (UsigHmacVerifyHalf.add_remote_party S
              (UsigHmacVerifyHalf.add_remote_party S
                (UsigHmacVerifyHalf.add_remote_party S vh0 i stX.key).2
                i stY.key).2 i stX.key).2 i mX eX
          = Except.ok ())
        ∧ (UsigHmacVerifyHalf.verify S
            (UsigHmacVerifyHalf.add_remote_party S
              (UsigHmacVerifyHalf.add_remote_party S
                (UsigHmacVerifyHalf.add_remote_party S vh0 i stX.key).2
                i stY.key).2 i stX.key).2 i mY eY
          = Except.error UsigError.InvalidSignature))
  ∧ (∀ (C : SigScheme) (stX stY : UsigSignatureSignHalf C),
      (∀ d s, C.verifyRaw stX.public_key d s = true
          ↔ s = C.signRaw stX.private_key d) →
      (∀ d s, C.verifyRaw stY.public_key d s = true
          ↔ s = C.signRaw stY.private_key d) →
      (∀ d d', C.signRaw stX.private_key d ≠ C.signRaw stY.private_key d') →
      ∀ (vh0 : UsigSignatureVerifyHalf C) (i : ReplicaId) (mX mY : Bytes)
        (eX eY : SigSignature C),
        (UsigSignatureSignHalf.sign C stX mX).1 = Except.ok eX →
        (UsigSignatureSignHalf.sign C stY mY).1 = Except.ok eY →
        (UsigSignatureVerifyHalf.verify C
            (UsigSignatureVerifyHalf.add_remote_party C
              (UsigSignatureVerifyHalf.add_remote_party C vh0 i
                stX.public_key).2 i stY.public_key).2 i mX eX
          = Except.error UsigError.InvalidSignature)
        ∧ (UsigSignatureVerifyHalf.verify C
            (UsigSignatureVerifyHalf.add_remote_party C
              (UsigSignatureVerifyHalf.add_remote_party C vh0 i
                stX.public_key).2 i stY.public_key).2 i mY eY
          = Except.ok ())
        ∧ (UsigSignatureVerifyHalf.verify C
            (UsigSignatureVerifyHalf.add_remote_party C
              (UsigSignatureVerifyHalf.add_remote_party C
                (UsigSignatureVerifyHalf.add_remote_party C vh0 i
                  stX.public_key).2 i stY.public_key).2 i
              stX.public_key).2 i mX eX
          = Except.ok ())
        ∧ (UsigSignatureVerifyHalf.verify C
            (UsigSignatureVerifyHalf.add_remote_party C
              (UsigSignatureVerifyHalf.add_remote_party C
                (UsigSignatureVerifyHalf.add_remote_party C vh0 i
                  stX.public_key).2 i stY.public_key).2 i
              stX.public_key).2 i mY eY
          = Except.error UsigError.InvalidSignature)) := by
  constructor
  · intro S hinj stX stY hkX hkY hne hvX hvY vh0 i mX mY eX eY heX heY
    have hlook2 : ((UsigHmacVerifyHalf.add_remote_party S
        (UsigHmacVerifyHalf.add_remote_party S vh0 i stX.key).2
        i stY.key).2).other_hmacs i = some stY.key :=
      hmac_add_lookup S _ i stY.key hvY
    have hlook3 : ((UsigHmacVerifyHalf.add_remote_party S
        (UsigHmacVerifyHalf.add_remote_party S
          (UsigHmacVerifyHalf.add_remote_party S vh0 i stX.key).2
          i stY.key).2 i stX.key).2).other_hmacs i = some stX.key :=
      hmac_add_lookup S _ i stX.key hvX
    refine ⟨?_, ?_, ?_, ?_⟩
    · refine hmac_verify_wrong_key S hinj _ i stY.key stX mX mX eX hlook2
        ?_ heX
      rw [hkX]
      exact hne
    · refine hmac_verify_sign_ok S _ i stY mY eY ?_ heY
      rw [hkY]
      exact hlook2
    · refine hmac_verify_sign_ok S _ i stX mX eX ?_ heX
      rw [hkX]
      exact hlook3
    · refine hmac_verify_wrong_key S hinj _ i stX.key stY mY mY eY hlook3
        ?_ heY
      rw [hkY]
      intro h
      exact hne h.symm
  · intro C stX stY hstX hstY hne vh0 i mX mY eX eY heX heY
    have hlook2 : ((UsigSignatureVerifyHalf.add_remote_party C
        (UsigSignatureVerifyHalf.add_remote_party C vh0 i
          stX.public_key).2 i stY.public_key).2).other_keys i
        = some stY.public_key := by
      simp [UsigSignatureVerifyHalf.add_remote_party]
    have hlook3 : ((UsigSignatureVerifyHalf.add_remote_party C
        (UsigSignatureVerifyHalf.add_remote_party C
          (UsigSignatureVerifyHalf.add_remote_party C vh0 i
            stX.public_key).2 i stY.public_key).2 i
        stX.public_key).2).other_keys i = some stX.public_key := by
      simp [UsigSignatureVerifyHalf.add_remote_party]
    refine ⟨?_, ?_, ?_, ?_⟩
    · refine sig_verify_reject C _ i stY.public_key stX mX mX eX hlook2
        ?_ heX
      cases hb : C.verifyRaw stY.public_key (beBytes stX.counter ++ mX)
          (C.signRaw stX.private_key (beBytes stX.counter ++ mX))
      · rfl
      · exact absurd ((hstY _ _).mp hb) (hne _ _)
    · exact sig_verify_sign_ok C _ i stY.public_key stY mY eY hlook2
        (fun d => (hstY d _).mpr rfl) heY
    · exact sig_verify_sign_ok C _ i stX.public_key stX mX eX hlook3
        (fun d => (hstX d _).mpr rfl) heX
    · refine sig_verify_reject C _ i stX.public_key stY mY mY eY hlook3
        ?_ heY
      cases hb : C.verifyRaw stX.public_key (beBytes stY.counter ++ mY)
          (C.signRaw stY.private_key (beBytes stY.counter ++ mY))
      · rfl
      · exact absurd ((hstX _ _).mp hb).symm (hne _ _)

/-- Witness for C5: the concrete overwrite scenario with the toy primitives:
enroll X, then Y, then X again under id 0 and check the four verdicts on the
two signers' envelopes. -/
theorem C5_enrollment_overwrite_witness :
    ((UsigHmacVerifyHalf.verify toyMac
        (UsigHmacVerifyHalf.add_remote_party toyMac
          (UsigHmacVerifyHalf.add_remote_party toyMac
            { other_hmacs := fun _ => none } 0 [3]).2 0 [4]).2 0 []
        { counter := 0, signature := toyMac.mac [3] (beBytes 0 ++ []) }
      = Except.error UsigError.InvalidSignature)
    ∧ (UsigHmacVerifyHalf.verify toyMac
        (UsigHmacVerifyHalf.add_remote_party toyMac
          (UsigHmacVerifyHalf.add_remote_party toyMac
            { other_hmacs := fun _ => none } 0 [3]).2 0 [4]).2 0 []
        { counter := 0, signature := toyMac.mac [4] (beBytes 0 ++ []) }
      = Except.ok ())
    ∧ (UsigHmacVerifyHalf.verify toyMac
        (UsigHmacVerifyHalf.add_remote_party toyMac
          (UsigHmacVerifyHalf.add_remote_party toyMac
            (UsigHmacVerifyHalf.add_remote_party toyMac
              { other_hmacs := fun _ => none } 0 [3]).2 0 [4]).2 0 [3]).2
        0 [] { counter := 0, signature := toyMac.mac [3] (beBytes 0 ++ []) }
      = Except.ok ())
    ∧ (UsigHmacVerifyHalf.verify toyMac
        (UsigHmacVerifyHalf.add_remote_party toyMac
          (UsigHmacVerifyHalf.add_remote_party toyMac
            (UsigHmacVerifyHalf.add_remote_party toyMac
              { other_hmacs := fun _ => none } 0 [3]).2 0 [4]).2 0 [3]).2
        0 [] { counter := 0, signature := toyMac.mac [4] (beBytes 0 ++ []) }
      = Except.error UsigError.InvalidSignature)) :=
  C5_enrollment_overwrite.1 toyMac toyMac_mac_inj
    { counter := 0, hmac := [3], key := [3] }
    { counter := 0, hmac := [4], key := [4] } rfl rfl (by decide)
    (by decide) (by decide) { other_hmacs := fun _ => none } 0 [] [] _ _
    rfl rfl

/-- C6: for every backend, each operation on the composed USIG behaves
identically to the corresponding operation on the halves: sign and attest
return the sign half's results and update only the sign half; verify and
add_remote_party return the verify half's results and update only the
verify half; and split returns exactly the two contained halves. Hence any
operation sequence gives the same results whether routed through the
composed USIG or through its split halves. -/
theorem C6_split_equivalence :
    (∀ (S : MacScheme) (u : UsigHmac) (m : Bytes) (i : ReplicaId)
        (e : HmacSignature) (att : Bytes),
      (UsigHmac.sign S u m).1 = (UsigHmacSignHalf.sign S u.sign_half m).1
      ∧ (UsigHmac.sign S u m).2.sign_half
          = (UsigHmacSignHalf.sign S u.sign_half m).2
      ∧ (UsigHmac.sign S u m).2.verify_half = u.verify_half
      ∧ (UsigHmac.attest u).1 = (UsigHmacSignHalf.attest u.sign_half).1
      ∧ (UsigHmac.attest u).2.sign_half
          = (UsigHmacSignHalf.attest u.sign_half).2
      ∧ (UsigHmac.attest u).2.verify_half = u.verify_half
      ∧ UsigHmac.verify S u i m e
          = UsigHmacVerifyHalf.verify S u.verify_half i m e
      ∧ (UsigHmac.add_remote_party S u i att).1
          = (UsigHmacVerifyHalf.add_remote_party S u.verify_half i att).1
      ∧ (UsigHmac.add_remote_party S u i att).2.verify_half
          = (UsigHmacVerifyHalf.add_remote_party S u.verify_half i att).2
      ∧ (UsigHmac.add_remote_party S u i att).2.sign_half = u.sign_half
      ∧ UsigHmac.split u = (u.sign_half, u.verify_half))
  ∧ (∀ (C : SigScheme) (u : UsigSignature C) (m : Bytes) (i : ReplicaId)
        (e : SigSignature C) (att : C.VK),
      (UsigSignature.sign C u m).1
          = (UsigSignatureSignHalf.sign C u.sign_half m).1
      ∧ (UsigSignature.sign C u m).2.sign_half
          = (UsigSignatureSignHalf.sign C u.sign_half m).2
      ∧ (UsigSignature.sign C u m).2.verify_half = u.verify_half
      ∧ (UsigSignature.attest C u).1
          = (UsigSignatureSignHalf.attest C u.sign_half).1
      ∧ (UsigSignature.attest C u).2.sign_half
          = (UsigSignatureSignHalf.attest C u.sign_half).2
      ∧ (UsigSignature.attest C u).2.verify_half = u.verify_half
      ∧ UsigSignature.verify C u i m e
          = UsigSignatureVerifyHalf.verify C u.verify_half i m e
      ∧ (UsigSignature.add_remote_party C u i att).1
          = (UsigSignatureVerifyHalf.add_remote_party C u.verify_half
              i att).1
      ∧ (UsigSignature.add_remote_party C u i att).2.verify_half
          = (UsigSignatureVerifyHalf.add_remote_party C u.verify_half
              i att).2
      ∧ (UsigSignature.add_remote_party C u i att).2.sign_half
          = u.sign_half
      ∧ UsigSignature.split C u = (u.sign_half, u.verify_half))
  ∧ (∀ (u : UsigNoOp) (m : Bytes) (i : ReplicaId) (e : NoopSignature)
        (att : Unit),
      (UsigNoOp.sign u m).1 = (UsigNoOpSignHalf.sign u.sign_half m).1
      ∧ (UsigNoOp.sign u m).2.sign_half
          = (UsigNoOpSignHalf.sign u.sign_half m).2
      ∧ (UsigNoOp.sign u m).2.verify_half = u.verify_half
      ∧ (UsigNoOp.attest u).1 = (UsigNoOpSignHalf.attest u.sign_half).1
      ∧ (UsigNoOp.attest u).2.sign_half
          = (UsigNoOpSignHalf.attest u.sign_half).2
      ∧ (UsigNoOp.attest u).2.verify_half = u.verify_half
      ∧ UsigNoOp.verify u i m e
          = UsigNoOpVerifyHalf.verify u.verify_half i m e
      ∧ (UsigNoOp.add_remote_party u i att).1
          = (UsigNoOpVerifyHalf.add_remote_party u.verify_half i att).1
      ∧ (UsigNoOp.add_remote_party u i att).2.verify_half
          = (UsigNoOpVerifyHalf.add_remote_party u.verify_half i att).2
      ∧ (UsigNoOp.add_remote_party u i att).2.sign_half = u.sign_half
      ∧ UsigNoOp.split u = (u.sign_half, u.verify_half)) :=
  ⟨fun S u m i e att =>
    ⟨rfl, rfl, rfl, rfl, rfl, rfl, rfl, rfl, rfl, rfl, rfl⟩,
   fun C u m i e att =>
    ⟨rfl, rfl, rfl, rfl, rfl, rfl, rfl, rfl, rfl, rfl, rfl⟩,
   fun u m i e att =>
    ⟨rfl, rfl, rfl, rfl, rfl, rfl, rfl, rfl, rfl, rfl, rfl⟩⟩

/-- C7: for every backend, attest returns Ok with the attestation material
fixed at construction (the raw key for the HMAC backend, the public key for
the signature backend) and returns the state unchanged; sign never changes
the key material; and because attest never advances the counter, envelopes
signed before and after any number of attest calls carry consecutive
counters. -/
theorem C7_attest_frame :
    (∀ (st : UsigHmacSignHalf),
      UsigHmacSignHalf.attest st = (Except.ok st.key, st))
  ∧ (∀ (C : SigScheme) (st : UsigSignatureSignHalf C),
      UsigSignatureSignHalf.attest C st = (Except.ok st.public_key, st))
  ∧ (∀ (st : UsigNoOpSignHalf),
      UsigNoOpSignHalf.attest st = (Except.ok (), st))
  ∧ (∀ (S : MacScheme) (st : UsigHmacSignHalf) (m : Bytes),
      (UsigHmacSignHalf.sign S st m).2.key = st.key
      ∧ (UsigHmacSignHalf.sign S st m).2.hmac = st.hmac)
  ∧ (∀ (C : SigScheme) (st : UsigSignatureSignHalf C) (m : Bytes),
      (UsigSignatureSignHalf.sign C st m).2.public_key = st.public_key)
  ∧ (∀ (S : MacScheme) (st : UsigHmacSignHalf) (m m' : Bytes) (n : Nat),
      ∃ e₁ e₂,
        (UsigHmacSignHalf.sign S st m).1 = Except.ok e₁
        ∧ (UsigHmacSignHalf.sign S
            ((fun s => (UsigHmacSignHalf.attest s).2)^[n]
              (UsigHmacSignHalf.sign S st m).2) m').1 = Except.ok e₂
        ∧ e₂.counter = e₁.counter + 1)
  ∧ (∀ (C : SigScheme) (st : UsigSignatureSignHalf C) (m m' : Bytes)
        (n : Nat),
      ∃ e₁ e₂,
        (UsigSignatureSignHalf.sign C st m).1 = Except.ok e₁
        ∧ (UsigSignatureSignHalf.sign C
            ((fun s => (UsigSignatureSignHalf.attest C s).2)^[n]
              (UsigSignatureSignHalf.sign C st m).2) m').1 = Except.ok e₂
        ∧ e₂.counter = e₁.counter + 1)
  ∧ (∀ (st : UsigNoOpSignHalf) (m m' : Bytes) (n : Nat),
      ∃ e₁ e₂,
        (UsigNoOpSignHalf.sign st m).1 = Except.ok e₁
        ∧ (UsigNoOpSignHalf.sign
            ((fun s => (UsigNoOpSignHalf.attest s).2)^[n]
              (UsigNoOpSignHalf.sign st m).2) m').1 = Except.ok e₂
        ∧ e₂.counter = e₁.counter + 1) := by
  refine ⟨fun st => rfl, fun C st => rfl, fun st => rfl,
    fun S st m => ⟨rfl, rfl⟩, fun C st m => rfl, ?_, ?_, ?_⟩
  · intro S st m m' n
    have hid : (fun s => (UsigHmacSignHalf.attest s).2)
        = (id : UsigHmacSignHalf → UsigHmacSignHalf) := rfl
    rw [hid, Function.iterate_id]
    exact ⟨_, _, rfl, rfl, rfl⟩
  · intro C st m m' n
    have hid : (fun s => (UsigSignatureSignHalf.attest C s).2)
        = (id : UsigSignatureSignHalf C → UsigSignatureSignHalf C) := rfl
    rw [hid, Function.iterate_id]
    exact ⟨_, _, rfl, rfl, rfl⟩
  · intro st m m' n
    have hid : (fun s => (UsigNoOpSignHalf.attest s).2)
        = (id : UsigNoOpSignHalf → UsigNoOpSignHalf) := rfl
    rw [hid, Function.iterate_id]
    exact ⟨_, _, rfl, rfl, rfl⟩

/-- C8: add_remote_party of the HMAC backend returns false exactly when the
MAC primitive's key constructor rejects the attestation bytes, and then
leaves the enrollment map completely unchanged; the signature and no-op
backends return true unconditionally; and whenever the call returns true the
map afterwards holds the new material under the id while every other entry
is unchanged. -/
theorem C8_add_remote_party_semantics :
    (∀ (S : MacScheme) (vh : UsigHmacVerifyHalf) (i : ReplicaId)
        (att : Bytes),
      ((UsigHmacVerifyHalf.add_remote_party S vh i att).1 = false
        ↔ S.validKey att = false)
      ∧ ((UsigHmacVerifyHalf.add_remote_party S vh i att).1 = false →
          (UsigHmacVerifyHalf.add_remote_party S vh i att).2 = vh)
      ∧ ((UsigHmacVerifyHalf.add_remote_party S vh i att).1 = true →
          (UsigHmacVerifyHalf.add_remote_party S vh i att).2.other_hmacs i
              = some att
          ∧ ∀ j, j ≠ i →
            (UsigHmacVerifyHalf.add_remote_party S vh i att).2.other_hmacs j
              = vh.other_hmacs j))
  ∧ (∀ (C : SigScheme) (vh : UsigSignatureVerifyHalf C) (i : ReplicaId)
        (att : C.VK),
      (UsigSignatureVerifyHalf.add_remote_party C vh i att).1 = true
      ∧ (UsigSignatureVerifyHalf.add_remote_party C vh i att).2.other_keys i
          = some att
      ∧ ∀ j, j ≠ i →
        (UsigSignatureVerifyHalf.add_remote_party C vh i att).2.other_keys j
          = vh.other_keys j)
  ∧ (∀ (vh : UsigNoOpVerifyHalf) (i : ReplicaId) (att : Unit),
      (UsigNoOpVerifyHalf.add_remote_party vh i att).1 = true
      ∧ (UsigNoOpVerifyHalf.add_remote_party vh i att).2.ids i = true
      ∧ ∀ j, j ≠ i →
        (UsigNoOpVerifyHalf.add_remote_party vh i att).2.ids j
          = vh.ids j) := by
  refine ⟨?_, ?_, ?_⟩
  · intro S vh i att
    cases hv : S.validKey att
    · refine ⟨by simp [UsigHmacVerifyHalf.add_remote_party, hv], ?_, ?_⟩
      · intro _
        simp [UsigHmacVerifyHalf.add_remote_party, hv]
      · intro h
        simp [UsigHmacVerifyHalf.add_remote_party, hv] at h
    · refine ⟨by simp [UsigHmacVerifyHalf.add_remote_party, hv], ?_, ?_⟩
      · intro h
        simp [UsigHmacVerifyHalf.add_remote_party, hv] at h
      · intro _
        refine ⟨by simp [UsigHmacVerifyHalf.add_remote_party, hv], ?_⟩
        intro j hj
        simp [UsigHmacVerifyHalf.add_remote_party, hv, hj]
  · intro C vh i att
    refine ⟨rfl, by simp [UsigSignatureVerifyHalf.add_remote_party], ?_⟩
    intro j hj
    simp [UsigSignatureVerifyHalf.add_remote_party, hj]
  · intro vh i att
    refine ⟨rfl, by simp [UsigNoOpVerifyHalf.add_remote_party], ?_⟩
    intro j hj
    simp [UsigNoOpVerifyHalf.add_remote_party, hj]

/-- Witness for C8: with the toy MAC primitive (which accepts exactly keys
of length one), a rejected attestation leaves the HMAC map untouched, and an
accepted one installs the key under the id without touching other ids. -/
theorem C8_add_remote_party_semantics_witness :
    (UsigHmacVerifyHalf.add_remote_party toyMac
        { other_hmacs := fun _ => none } 0 []).2
      = { other_hmacs := fun _ => none }
  ∧ (UsigHmacVerifyHalf.add_remote_party toyMac
        { other_hmacs := fun _ => none } 0 [5]).2.other_hmacs 0 = some [5]
  ∧ (UsigHmacVerifyHalf.add_remote_party toyMac
        { other_hmacs := fun _ => none } 0 [5]).2.other_hmacs 1 = none
  ∧ (UsigSignatureVerifyHalf.add_remote_party toySig
        { other_keys := fun _ => none } 0 7).2.other_keys 0 = some 7 :=
  ⟨(C8_add_remote_party_semantics.1 toyMac
      { other_hmacs := fun _ => none } 0 []).2.1 (by decide),
   ((C8_add_remote_party_semantics.1 toyMac
      { other_hmacs := fun _ => none } 0 [5]).2.2 (by decide)).1,
   (((C8_add_remote_party_semantics.1 toyMac
      { other_hmacs := fun _ => none } 0 [5]).2.2 (by decide)).2 1
      (by decide)).trans rfl,
   (C8_add_remote_party_semantics.2.1 toySig
      { other_keys := fun _ => none } 0 7).2.1⟩

/-- C9 counterexample: the claim that one call to verify always resolves the
message to its byte view exactly once fails on the unknown-id path: with no
id enrolled, verify returns without ever taking the byte view, so the
observable read count stays 0 rather than increasing by 1. Shown for the
no-op and the HMAC backends. -/
theorem C9_single_read_counterexample :
    (UsigNoOpVerifyHalf.verifyTraced { ids := fun _ => false } 0
        { view := [], reads := 0 } { counter := 0 }).2.reads = 0
  ∧ ¬ ((UsigNoOpVerifyHalf.verifyTraced { ids := fun _ => false } 0
        { view := [], reads := 0 } { counter := 0 }).2.reads = 0 + 1)
  ∧ (UsigHmacVerifyHalf.verifyTraced toyMac { other_hmacs := fun _ => none }
        0 { view := [], reads := 0 }
        { counter := 0, signature := [] }).2.reads = 0 :=
  ⟨rfl, by decide, rfl⟩

/-- C9 (amended): for every backend, one call to sign resolves the message
to its byte view exactly once; one call to verify resolves it exactly once
when the id is enrolled, and not at all when the id is unknown. -/
theorem C9_single_read_amended :
    (∀ (S : MacScheme) (st : UsigHmacSignHalf) (src : ByteSource),
      ((UsigHmacSignHalf.signTraced S st src).2).reads = src.reads + 1)
  ∧ (∀ (C : SigScheme) (st : UsigSignatureSignHalf C) (src : ByteSource),
      ((UsigSignatureSignHalf.signTraced C st src).2).reads
        = src.reads + 1)
  ∧ (∀ (st : UsigNoOpSignHalf) (src : ByteSource),
      ((UsigNoOpSignHalf.signTraced st src).2).reads = src.reads + 1)
  ∧ (∀ (S : MacScheme) (vh : UsigHmacVerifyHalf) (i : ReplicaId)
        (src : ByteSource) (e : HmacSignature) (k : Bytes),
      vh.other_hmacs i = some k →
      ((UsigHmacVerifyHalf.verifyTraced S vh i src e).2).reads
        = src.reads + 1)
  ∧ (∀ (S : MacScheme) (vh : UsigHmacVerifyHalf) (i : ReplicaId)
        (src : ByteSource) (e : HmacSignature),
      vh.other_hmacs i = none →
      ((UsigHmacVerifyHalf.verifyTraced S vh i src e).2).reads = src.reads)
  ∧ (∀ (C : SigScheme) (vh : UsigSignatureVerifyHalf C) (i : ReplicaId)
        (src : ByteSource) (e : SigSignature C) (k : C.VK),
      vh.other_keys i = some k →
      ((UsigSignatureVerifyHalf.verifyTraced C vh i src e).2).reads
        = src.reads + 1)
  ∧ (∀ (C : SigScheme) (vh : UsigSignatureVerifyHalf C) (i : ReplicaId)
        (src : ByteSource) (e : SigSignature C),
      vh.other_keys i = none →
      ((UsigSignatureVerifyHalf.verifyTraced C vh i src e).2).reads
        = src.reads)
  ∧ (∀ (vh : UsigNoOpVerifyHalf) (i : ReplicaId) (src : ByteSource)
        (e : NoopSignature),
      vh.ids i = true →
      ((UsigNoOpVerifyHalf.verifyTraced vh i src e).2).reads
        = src.reads + 1)
  ∧ (∀ (vh : UsigNoOpVerifyHalf) (i : ReplicaId) (src : ByteSource)
        (e : NoopSignature),
      vh.ids i = false →
      ((UsigNoOpVerifyHalf.verifyTraced vh i src e).2).reads
        = src.reads) := by
  refine ⟨fun S st src => rfl, fun C st src => rfl, fun st src => rfl,
    ?_, ?_, ?_, ?_, ?_, ?_⟩
  · intro S vh i src e k hik
    simp only [UsigHmacVerifyHalf.verifyTraced, hik]
    split <;> rfl
  · intro S vh i src e hik
    simp [UsigHmacVerifyHalf.verifyTraced, hik]
  · intro C vh i src e k hik
    simp only [UsigSignatureVerifyHalf.verifyTraced, hik]
    split <;> rfl
  · intro C vh i src e hik
    simp [UsigSignatureVerifyHalf.verifyTraced, hik]
  · intro vh i src e hik
    simp [UsigNoOpVerifyHalf.verifyTraced, hik, ByteSource.asRef]
  · intro vh i src e hik
    simp [UsigNoOpVerifyHalf.verifyTraced, hik]

/-- Witness for the amended C9: concrete read counts for an enrolled and an
unknown id in each backend's verify. -/
theorem C9_single_read_amended_witness :
    ((UsigHmacVerifyHalf.verifyTraced toyMac
        { other_hmacs := fun j => if j = 0 then some [3] else none } 0
        { view := [], reads := 0 }
        { counter := 0, signature := [] }).2).reads = 0 + 1
  ∧ ((UsigHmacVerifyHalf.verifyTraced toyMac
        { other_hmacs := fun _ => none } 0 { view := [], reads := 0 }
        { counter := 0, signature := [] }).2).reads = 0
  ∧ ((UsigSignatureVerifyHalf.verifyTraced toySig
        { other_keys := fun j => if j = 0 then some 3 else none } 0
        { view := [], reads := 0 }
        { counter := 0, signature := (3, []) }).2).reads = 0 + 1
  ∧ ((UsigSignatureVerifyHalf.verifyTraced toySig
        { other_keys := fun _ => none } 0 { view := [], reads := 0 }
        { counter := 0, signature := (3, []) }).2).reads = 0
  ∧ ((UsigNoOpVerifyHalf.verifyTraced
        { ids := fun j => if j = 0 then true else false } 0
        { view := [], reads := 0 } { counter := 0 }).2).reads = 0 + 1
  ∧ ((UsigNoOpVerifyHalf.verifyTraced { ids := fun _ => false } 0
        { view := [], reads := 0 } { counter := 0 }).2).reads = 0 :=
  ⟨C9_single_read_amended.2.2.2.1 toyMac _ 0 _ _ [3] rfl,
   C9_single_read_amended.2.2.2.2.1 toyMac _ 0 _ _ rfl,
   C9_single_read_amended.2.2.2.2.2.1 toySig _ 0 _ _ 3 rfl,
   C9_single_read_amended.2.2.2.2.2.2.1 toySig _ 0 _ _ rfl,
   C9_single_read_amended.2.2.2.2.2.2.2.1 _ 0 _ _ rfl,
   C9_single_read_amended.2.2.2.2.2.2.2.2 _ 0 _ _ rfl⟩

/-- C10: the no-op backend's verify returns Ok for every message and every
signature value whenever the id is contained in the enrollment set: neither
the signature content nor the message bytes are examined, so wrong-message
and wrong-key mismatches pass undetected. -/
theorem C10_noop_verify_unconditional :
    ∀ (vh : UsigNoOpVerifyHalf) (i : ReplicaId) (m : Bytes)
      (s : NoopSignature), vh.ids i = true →
      UsigNoOpVerifyHalf.verify vh i m s = Except.ok () := by
  intro vh i m s h
  simp [UsigNoOpVerifyHalf.verify, h]

/-- Witness for C10: after enrolling id 0, the no-op backend accepts an
arbitrary message and an arbitrary fake signature under id 0. -/
theorem C10_noop_verify_unconditional_witness :
    UsigNoOpVerifyHalf.verify
        (UsigNoOpVerifyHalf.add_remote_party { ids := fun _ => false }
          0 ()).2 0 [9, 9] { counter := 42 } = Except.ok () :=
  C10_noop_verify_unconditional _ 0 [9, 9] { counter := 42 } rfl
